import Mathlib

/-!
Shallow embedding of `src/detector_fast.py`, the fast AI-voice detection
pipeline: `load_audio_fast` → `extract_features_fast` → `classify_voice`,
wrapped by `detect_ai_voice`.

Modelling conventions:
* Python floats are modelled as exact rationals (`ℚ`).
* Raw audio bytes are a `List ℕ`.
* External libraries (soundfile decoding, the MD5 digest of `hashlib`,
  numpy's `RandomState`/global RNG, scipy's FFT, and the transcendental
  functions `sqrt`/`exp`/`log` used by numpy) are modelled as oracle
  fields of an `Env` record.  The pipeline's own control flow and
  arithmetic are concrete.
* Python exceptions are modelled with `Except`: `load_audio_fast` absorbs
  its decode failures internally (`Option` on each decode attempt),
  `extract_features_fast` can raise (it applies `np.max` to the waveform,
  which raises `ValueError` on an empty array), and `detect_ai_voice`
  catches everything from the chain (the `try/except` at
  `detector_fast.py:231-255`).
* numpy's global RNG (`np.random.seed` / `np.random.uniform` at
  `detector_fast.py:206-208`) is modelled as explicit state of an
  abstract type `σ`: `classify_voice` consumes an incoming state and
  returns the successor state, exactly as the Python mutates the global
  generator.
-/

/-- The raw transport bytes (`audio_data: bytes`). -/
abbrev Bytes := List ℕ

/-- The result of `soundfile.read`: either a 1-D mono array or a 2-D
(frame × channel) array, plus the decoded sample rate. -/
inductive SfData where
  | oneD (y : List ℚ)
  | twoD (rows : List (List ℚ))
  deriving DecidableEq

/-- A successful `sf.read` call: decoded data and its sample rate. -/
structure SfRead where
  data : SfData
  sr : ℕ
  deriving DecidableEq

/-- The external world of `detector_fast.py`: library availability flags,
the decoders, the MD5 digest, numpy randomness (global state of type `σ`),
scipy's FFT magnitudes, and the real-valued transcendental functions.
Every field is a pure function: each of these libraries is deterministic
in its inputs, which the determinism claims rely on. -/
structure Env (σ : Type) where
  /-- `SOUNDFILE_AVAILABLE` (detector_fast.py:19-21). -/
  soundfileAvailable : Bool
  /-- `SCIPY_AVAILABLE` (detector_fast.py:28-30). -/
  scipyAvailable : Bool
  /-- `sf.read(io.BytesIO(audio_data))`: `none` models a raised decode
  exception (detector_fast.py:43). -/
  decodeMem : Bytes → Option SfRead
  /-- `sf.read(tmp_path)` after writing the bytes to a temp file:
  `none` models a raised decode exception (detector_fast.py:58-61). -/
  decodeFile : Bytes → Option SfRead
  /-- `hashlib.md5(audio_data).digest()` as a 128-bit natural number
  (most significant byte first, as `hexdigest` prints it). -/
  md5 : Bytes → ℕ
  /-- `np.random.RandomState(seed).randn(...)`: the value stream of the
  freshly seeded local generator, `seed ↦ index ↦ sample`
  (detector_fast.py:79). -/
  randn : ℕ → ℕ → ℚ
  /-- `np.random.seed(seed)`: the global numpy RNG state installed by
  seeding (detector_fast.py:207). -/
  npSeed : ℕ → σ
  /-- `np.random.uniform(-0.05, 0.05)`: draw from the global RNG state,
  returning the value and the successor state (detector_fast.py:208). -/
  npUniform : σ → ℚ × σ
  /-- `np.sqrt` on a nonnegative scalar. -/
  sqrt : ℚ → ℚ
  /-- `np.exp`. -/
  exp : ℚ → ℚ
  /-- `np.log`. -/
  log : ℚ → ℚ
  /-- `np.abs(scipy.fft.fft(segment, n))`: the length-`n` magnitude
  spectrum of the segment (detector_fast.py:105). -/
  fftMag : List ℚ → ℕ → List ℚ
  /-- Oracle for "the frequency-domain computation throws for some
  environmental reason" inside the `try` of detector_fast.py:99-140,
  beyond the failure cases the embedding reproduces deterministically. -/
  spectralRaises : List ℚ → Bool

/-- The leading 32 bits of the MD5 digest: `int(audio_hash[:8], 16)`
(detector_fast.py:78, 206, 250). -/
def hash32 {σ : Type} (env : Env σ) (b : Bytes) : ℕ :=
  env.md5 b / 2 ^ 96

/-- The leading 16 bits of the MD5 digest: `int(audio_hash[:4], 16)`
(detector_fast.py:198). -/
def hash16 {σ : Type} (env : Env σ) (b : Bytes) : ℕ :=
  env.md5 b / 2 ^ 112

/-- `np.mean` (0 on the empty list, where numpy yields NaN with a
suppressed warning; the embedding only reads it on nonempty lists). -/
def npMean (l : List ℚ) : ℚ := l.sum / l.length

/-- `np.var`: population variance. -/
def npVar (l : List ℚ) : ℚ := npMean (l.map (fun x => (x - npMean l) ^ 2))

/-- `np.sign`. -/
def npSign (x : ℚ) : ℚ := if 0 < x then 1 else if x < 0 then -1 else 0

/-- `np.mean(y, axis=1)` on a 2-D array, identity on 1-D: stereo-to-mono
downmix (detector_fast.py:44-45, 63-64). -/
def toMono : SfData → List ℚ
  | .oneD y => y
  | .twoD rows => rows.map (fun r => r.sum / r.length)

/-- `np.linspace(0, stop, num)` with the default inclusive endpoint. -/
def linspace (stop : ℕ) (num : ℕ) : List ℚ :=
  if num = 0 then []
  else if num = 1 then [0]
  else (List.range num).map (fun k : ℕ => ((k : ℚ) * (stop : ℚ)) / ((num : ℚ) - 1))

/-- One point of `np.interp(x, np.arange(len(y)), y)`: clamped linear
interpolation over integer sample indices (detector_fast.py:50, 68). -/
def npInterp (y : List ℚ) (x : ℚ) : ℚ :=
  if x ≤ 0 then y.getD 0 0
  else if (y.length - 1 : ℚ) ≤ x then y.getD (y.length - 1) 0
  else
    let i := ⌊x⌋.toNat
    y.getD i 0 + (x - i) * (y.getD (i + 1) 0 - y.getD i 0)

/-- `np.interp(np.linspace(0, len(y), new_length), np.arange(len(y)), y)`:
the linear-interpolation resampling step (detector_fast.py:50, 68). -/
def resample (y : List ℚ) (newLen : ℕ) : List ℚ :=
  (linspace y.length newLen).map (npInterp y)

/-- Post-processing of one successful `sf.read`: downmix to mono, then
resample when the decoded rate differs from the 16000 Hz target.
`new_length = int(len(y) * ratio)` truncates (Python `int` on a
nonnegative float), modelled by natural-number division.  Two raises can
abort the resampling branch, and the enclosing bare `except` then turns
the whole attempt into a failure: a decoded rate of 0 raises
`ZeroDivisionError` in `target_sr / sr`, and an empty decoded signal
makes `np.interp` raise `ValueError` ("array of sample points is empty")
on `np.arange(0)` — even when the query points are empty too
(detector_fast.py:43-53, 61-70). -/
def tryDecode (dec : Option SfRead) : Option (List ℚ) :=
  match dec with
  | none => none
  | some d =>
    let y := toMono d.data
    if d.sr = 16000 then some y
    else if d.sr = 0 ∨ y = [] then none
    else some (resample y (y.length * 16000 / d.sr))

/-- The in-memory decode attempt (detector_fast.py:40-53). -/
def memAttempt {σ : Type} (env : Env σ) (b : Bytes) : Option (List ℚ) :=
  if env.soundfileAvailable then tryDecode (env.decodeMem b) else none

/-- The temp-file decode attempt (detector_fast.py:56-74). -/
def fileAttempt {σ : Type} (env : Env σ) (b : Bytes) : Option (List ℚ) :=
  if env.soundfileAvailable then tryDecode (env.decodeFile b) else none

/-- `np.random.RandomState(int(audio_hash[:8], 16)).randn(target_sr * 3)`:
the deterministic synthetic waveform (detector_fast.py:79). -/
def fakeAudio {σ : Type} (env : Env σ) (b : Bytes) : List ℚ :=
  (List.range (16000 * 3)).map (env.randn (hash32 env b))

/-- `load_audio_fast(audio_data)` (detector_fast.py:34-80): in-memory
decode, then temp-file decode, then the hash-seeded synthetic waveform.
Always returns a buffer at the fixed 16000 Hz target rate and never
raises (every internal failure is absorbed by a bare `except`). -/
def load_audio_fast {σ : Type} (env : Env σ) (b : Bytes) : List ℚ × ℕ :=
  match memAttempt env b with
  | some y => (y, 16000)
  | none =>
    match fileAttempt env b with
    | some y => (y, 16000)
    | none => (fakeAudio env b, 16000)

/-- The four neutral frequency-domain constants used when spectral
computation fails or scipy is unavailable (detector_fast.py:142-150). -/
def neutralSpectral : List (String × ℚ) :=
  [("spectral_centroid", 1000.0), ("spectral_rolloff", 4000.0),
   ("spectral_flatness", 0.5), ("energy_variance", 0.1)]

/-- `np.cumsum`. -/
def cumsum : List ℚ → List ℚ
  | [] => []
  | x :: xs => x :: (cumsum xs).map (x + ·)

/-- `np.searchsorted(l, v)` with the default `side='left'` on a sorted
list: the first index whose element is ≥ `v`. -/
def searchsortedLeft (l : List ℚ) (v : ℚ) : ℕ :=
  (l.takeWhile (fun c => c < v)).length

/-- The successful arm of the spectral-feature `try` block
(detector_fast.py:100-138): segment capping, FFT half-spectrum, spectral
centroid, rolloff, flatness, and normalized energy variance. -/
def spectralValues {σ : Type} (env : Env σ) (y : List ℚ) (sr : ℕ) :
    List (String × ℚ) :=
  let segment := y.take (2 * sr)
  let n_fft := min 2048 segment.length
  let spectrum := (env.fftMag segment n_fft).take (n_fft / 2)
  let freqs := (List.range (n_fft / 2)).map
    (fun k : ℕ => ((k : ℚ) * (sr : ℚ)) / (n_fft : ℚ))
  let centroid :=
    if 0 < spectrum.sum then
      ((freqs.zip spectrum).map (fun p => p.1 * p.2)).sum / spectrum.sum
    else 0
  let cums := cumsum spectrum
  let rolloff :=
    if 0 < cums.getLastD 0 then
      let idx := searchsortedLeft cums (0.85 * cums.getLastD 0)
      freqs.getD (min idx (freqs.length - 1)) 0
    else 0
  let pos := spectrum.filter (fun s => 0 < s)
  let flatness :=
    if pos ≠ [] then
      env.exp (npMean (pos.map (fun s => env.log (s + 1e-10)))) /
        (npMean pos + 1e-10)
    else 0
  let frame := sr / 10
  let nFrames := segment.length / frame
  let evar :=
    if 1 < nFrames then
      let energies := (List.range nFrames).map
        (fun i => (((segment.drop (i * frame)).take frame).map (fun a => a ^ 2)).sum)
      npVar energies / (npMean energies + 1e-10)
    else 0
  [("spectral_centroid", centroid), ("spectral_rolloff", rolloff),
   ("spectral_flatness", flatness), ("energy_variance", evar)]

/-- The spectral-feature `try/except` (detector_fast.py:99-145).  The
guard collects every raise landing in the `except` branch that assigns
the four neutral constants: an empty or 1-sample segment (`fft` with
`n=0` raises `ValueError`, and with `n=1` the half-spectrum is empty so
`cumsum[-1]` raises `IndexError`), an empty half-spectrum, `sr < 10`
(`frame_size = sr // 10 = 0` raises `ZeroDivisionError` in
`len(segment) // frame_size`), and the environmental oracle
`spectralRaises`. -/
def spectralComputed {σ : Type} (env : Env σ) (y : List ℚ) (sr : ℕ) :
    List (String × ℚ) :=
  if (y.take (2 * sr)).length ≤ 1 ∨
      ((env.fftMag (y.take (2 * sr)) (min 2048 (y.take (2 * sr)).length)).take
        (min 2048 (y.take (2 * sr)).length / 2)) = [] ∨
      sr < 10 ∨ env.spectralRaises (y.take (2 * sr)) then
    neutralSpectral
  else spectralValues env y sr

/-- The spectral part of the feature dict: computed under
`SCIPY_AVAILABLE and len(y) > 0`, otherwise the neutral constants
(detector_fast.py:98, 146-150). -/
def spectralFeatures {σ : Type} (env : Env σ) (y : List ℚ) (sr : ℕ) :
    List (String × ℚ) :=
  if env.scipyAvailable ∧ y ≠ [] then spectralComputed env y sr
  else neutralSpectral

/-- Zero-crossing rate: `np.sum(np.abs(np.diff(np.sign(y)))) / 2 / len(y)`
(detector_fast.py:94-95). -/
def zcrOf (y : List ℚ) : ℚ :=
  ((y.zip y.tail).map (fun p => |npSign p.2 - npSign p.1|)).sum / 2 / y.length

/-- `float(np.max(np.abs(y)))` (detector_fast.py:90). -/
def maxAbs (y : List ℚ) : ℚ := (y.map (fun a => |a|)).foldr max 0

/-- `extract_features_fast(y, sr)` (detector_fast.py:83-152): the feature
dict in insertion order.  On an empty waveform `np.max` raises
`ValueError` (line 90), which propagates to the caller, modelled as
`.error`. -/
def extract_features_fast {σ : Type} (env : Env σ) (y : List ℚ) (sr : ℕ) :
    Except Unit (List (String × ℚ)) :=
  if y = [] then .error ()
  else
    .ok ([("mean", npMean y), ("std", env.sqrt (npVar y)),
          ("max", maxAbs y),
          ("rms", env.sqrt (npMean (y.map (fun a => a ^ 2)))),
          ("zcr", zcrOf y)] ++ spectralFeatures env y sr)

/-- `features.get(key, default)` on the feature dict
(detector_fast.py:165-192). -/
def dget (f : List (String × ℚ)) (k : String) (d : ℚ) : ℚ :=
  (f.lookup k).getD d

/-- Rule 1 contribution: the spectral-flatness tier ladder
(detector_fast.py:165-168). -/
def flatnessContrib (f : List (String × ℚ)) : ℚ :=
  if dget f "spectral_flatness" 0 > 0.3 then 0.25
  else if dget f "spectral_flatness" 0 > 0.15 then 0.1
  else 0

/-- Rule 2 contribution: the energy-variance tier ladder
(detector_fast.py:173-176). -/
def energyContrib (f : List (String × ℚ)) : ℚ :=
  if dget f "energy_variance" 1 < 0.05 then 0.25
  else if dget f "energy_variance" 1 < 0.15 then 0.15
  else 0

/-- Rule 3 contribution: the zero-crossing-rate band
(detector_fast.py:180-182). -/
def zcrContrib (f : List (String × ℚ)) : ℚ :=
  if 0.02 < dget f "zcr" 0.1 ∧ dget f "zcr" 0.1 < 0.08 then 0.15 else 0

/-- Rule 4 contribution: the spectral-centroid band
(detector_fast.py:186-188). -/
def centroidContrib (f : List (String × ℚ)) : ℚ :=
  if 800 < dget f "spectral_centroid" 1500 ∧ dget f "spectral_centroid" 1500 < 2000
  then 0.1 else 0

/-- Rule 5 contribution: RMS consistency (detector_fast.py:192-193). -/
def rmsContrib (f : List (String × ℚ)) : ℚ :=
  if dget f "rms" 0 > 0.01 ∧ dget f "std" 1 / dget f "rms" 1 < 2 then 0.15 else 0

/-- The hash-derived perturbation
`(int(audio_hash[:4], 16) / 0xFFFF) * 0.2 - 0.1`
(detector_fast.py:197-198). -/
def hashVariation {σ : Type} (env : Env σ) (b : Bytes) : ℚ :=
  ((hash16 env b : ℚ) / 0xFFFF) * 0.2 - 0.1

/-- The accumulated `ai_score` after all six additions
(detector_fast.py:160-199). -/
def aiScore {σ : Type} (env : Env σ) (f : List (String × ℚ)) (b : Bytes) : ℚ :=
  flatnessContrib f + energyContrib f + zcrContrib f + centroidContrib f +
    rmsContrib f + hashVariation env b

/-- The accumulated `total_weight`: each `total_weight +=` in
detector_fast.py:169-200 runs unconditionally. -/
def totalWeight : ℚ := 0.25 + 0.25 + 0.15 + 0.1 + 0.15 + 0.1

/-- `final_score = max(0.0, min(1.0, ai_score / total_weight))`
(detector_fast.py:203). -/
def rawScore {σ : Type} (env : Env σ) (f : List (String × ℚ)) (b : Bytes) : ℚ :=
  max 0 (min 1 (aiScore env f b / totalWeight))

/-- The uniform perturbation drawn after `np.random.seed(seed)`: its value
depends only on the seed installed from the digest, never on the incoming
global RNG state (detector_fast.py:206-208). -/
def uDraw {σ : Type} (env : Env σ) (b : Bytes) : ℚ :=
  (env.npUniform (env.npSeed (hash32 env b))).1

/-- The re-clamped final score (detector_fast.py:208-209). -/
def finalScore {σ : Type} (env : Env σ) (f : List (String × ℚ)) (b : Bytes) : ℚ :=
  max 0 (min 1 (rawScore env f b + uDraw env b))

/-- `classify_voice(features, audio_data)` (detector_fast.py:155-215),
threading the global numpy RNG state: `np.random.seed` discards the
incoming state `rng` and installs `npSeed seed`; the uniform draw then
advances that installed state. -/
def classify_voice {σ : Type} (env : Env σ) (f : List (String × ℚ)) (b : Bytes)
    (rng : σ) : (String × ℚ) × σ :=
  let rngOut := (env.npUniform (env.npSeed (hash32 env b))).2
  if finalScore env f b > 0.5 then (("AI_GENERATED", finalScore env f b), rngOut)
  else (("HUMAN", 1.0 - finalScore env f b), rngOut)

/-- The `try` body of `detect_ai_voice`: load, extract, classify
(detector_fast.py:231-244).  `.error` is any exception escaping the chain. -/
def pipelineRun {σ : Type} (env : Env σ) (b : Bytes) (rng : σ) :
    Except Unit ((String × ℚ) × σ) :=
  match extract_features_fast env (load_audio_fast env b).1 (load_audio_fast env b).2 with
  | .error e => .error e
  | .ok f => .ok (classify_voice env f b rng)

/-- The `except` branch of `detect_ai_voice`: the hash-only deterministic
classification (detector_fast.py:246-255). -/
def hashFallback {σ : Type} (env : Env σ) (b : Bytes) : String × ℚ :=
  if (hash32 env b : ℚ) / 0xFFFFFFFF > 0.5 then
    ("AI_GENERATED", 0.6 + (hash32 env b : ℚ) / 0xFFFFFFFF * 0.2)
  else
    ("HUMAN", 0.6 + (1 - (hash32 env b : ℚ) / 0xFFFFFFFF) * 0.2)

/-- `detect_ai_voice(audio_data, language)` (detector_fast.py:218-255).
The `language` argument is only logged and never read by the pipeline. -/
def detect_ai_voice {σ : Type} (env : Env σ) (b : Bytes) (language : String)
    (rng : σ) : (String × ℚ) × σ :=
  match pipelineRun env b rng with
  | .ok r => r
  | .error _ => (hashFallback env b, rng)

/-- A minimal concrete environment: no soundfile, no scipy, zero digest,
zero-valued oracles, trivial RNG state.  Used to evaluate the theorems on
concrete inputs. -/
def envTriv : Env Unit :=
  { soundfileAvailable := false, scipyAvailable := false,
    decodeMem := fun _ => none, decodeFile := fun _ => none,
    md5 := fun _ => 0, randn := fun _ _ => 0,
    npSeed := fun _ => (), npUniform := fun _ => (0, ()),
    sqrt := fun _ => 0, exp := fun _ => 0, log := fun _ => 0,
    fftMag := fun _ _ => [], spectralRaises := fun _ => false }

/-- Environment whose in-memory decode yields a single sample at 22050 Hz:
the resampling branch with `int(1 * 16000 / 22050) = 0`. -/
def envDecode1 : Env Unit :=
  { envTriv with soundfileAvailable := true,
                 decodeMem := fun _ => some ⟨.oneD [1], 22050⟩ }

/-- Environment whose in-memory decode yields three samples at 8000 Hz:
the resampling branch with `int(3 * 16000 / 8000) = 6`. -/
def envDecode3 : Env Unit :=
  { envTriv with soundfileAvailable := true,
                 decodeMem := fun _ => some ⟨.oneD [0, 0, 0], 8000⟩ }

/-- Environment whose in-memory decode succeeds with a zero-frame buffer
at 44100 Hz: the resampling branch then raises inside `np.interp` (empty
array of sample points), so the attempt falls through to the synthetic
waveform. -/
def envEmpty44k : Env Unit :=
  { envTriv with soundfileAvailable := true,
                 decodeMem := fun _ => some ⟨.oneD [], 44100⟩ }

/-- Environment whose in-memory decode succeeds with an empty waveform at
the target rate, making `extract_features_fast` raise. -/
def envEmptyDecode : Env Unit :=
  { envTriv with soundfileAvailable := true,
                 decodeMem := fun _ => some ⟨.oneD [], 16000⟩ }

/-- The concrete feature map `extract_features_fast` produces for the
one-sample waveform `[1]` under `envTriv` (no scipy, zero oracles). -/
def fW : List (String × ℚ) :=
  [("mean", 1), ("std", 0), ("max", 1), ("rms", 0), ("zcr", 0),
   ("spectral_centroid", 1000), ("spectral_rolloff", 4000),
   ("spectral_flatness", 0.5), ("energy_variance", 0.1)]

lemma clamp01_bounds (x : ℚ) : 0 ≤ max 0 (min 1 x) ∧ max 0 (min 1 x) ≤ 1 :=
  ⟨le_max_left 0 (min 1 x), max_le (by norm_num) (min_le_left 1 x)⟩

lemma finalScore_bounds {σ : Type} (env : Env σ) (f : List (String × ℚ))
    (b : Bytes) : 0 ≤ finalScore env f b ∧ finalScore env f b ≤ 1 :=
  clamp01_bounds _

lemma classify_voice_fst {σ : Type} (env : Env σ) (f : List (String × ℚ))
    (b : Bytes) (rng : σ) :
    (classify_voice env f b rng).1 =
      if finalScore env f b > 0.5 then ("AI_GENERATED", finalScore env f b)
      else ("HUMAN", 1.0 - finalScore env f b) := by
  unfold classify_voice
  split <;> rfl

lemma classify_voice_conf {σ : Type} (env : Env σ) (f : List (String × ℚ))
    (b : Bytes) (rng : σ) :
    ((classify_voice env f b rng).1.1 = "AI_GENERATED" ∨
      (classify_voice env f b rng).1.1 = "HUMAN") ∧
    1 / 2 ≤ (classify_voice env f b rng).1.2 ∧
    (classify_voice env f b rng).1.2 ≤ 1 := by
  obtain ⟨h0, h1⟩ := finalScore_bounds env f b
  rw [classify_voice_fst]
  split_ifs with h
  · exact ⟨Or.inl rfl, by norm_num at h ⊢; linarith, by simpa using h1⟩
  · refine ⟨Or.inr rfl, ?_, ?_⟩ <;> norm_num at h ⊢ <;> linarith

lemma hash32_le {σ : Type} (env : Env σ) (b : Bytes)
    (h : env.md5 b < 2 ^ 128) : hash32 env b ≤ 0xFFFFFFFF := by
  have hlt : env.md5 b / 2 ^ 96 < 2 ^ 32 :=
    Nat.div_lt_of_lt_mul (by calc env.md5 b < 2 ^ 128 := h
                               _ = 2 ^ 96 * 2 ^ 32 := by norm_num)
  unfold hash32
  omega

lemma hashFallback_props {σ : Type} (env : Env σ) (b : Bytes)
    (h : env.md5 b < 2 ^ 128) :
    ((hashFallback env b).1 = "AI_GENERATED" ∨ (hashFallback env b).1 = "HUMAN") ∧
    7 / 10 ≤ (hashFallback env b).2 ∧ (hashFallback env b).2 ≤ 4 / 5 := by
  have hle : (hash32 env b : ℚ) ≤ 0xFFFFFFFF := by
    exact_mod_cast hash32_le env b h
  have h0 : (0 : ℚ) ≤ (hash32 env b : ℚ) / 0xFFFFFFFF := by positivity
  have h1 : (hash32 env b : ℚ) / 0xFFFFFFFF ≤ 1 :=
    (div_le_one (by norm_num)).mpr hle
  unfold hashFallback
  split_ifs with hc
  · refine ⟨Or.inl rfl, ?_, ?_⟩ <;> simp only [] <;> norm_num at hc ⊢ <;> linarith
  · refine ⟨Or.inr rfl, ?_, ?_⟩ <;> simp only [] <;> norm_num at hc ⊢ <;> linarith

/-- **C1.** For every environment (library availability, decoder and digest
behavior, RNG state) and every byte sequence and language,
`detect_ai_voice` returns a (label, confidence) pair: the run either
completes the load→extract→classify chain, or the `except` branch turns
the raised exception into the hash fallback — nothing propagates to the
caller. -/
theorem claim_C1 {σ : Type} (env : Env σ) (b : Bytes) (L : String) (rng : σ) :
    ∃ lab conf rngOut, detect_ai_voice env b L rng = ((lab, conf), rngOut) ∧
      ((∃ r, pipelineRun env b rng = Except.ok r ∧ detect_ai_voice env b L rng = r) ∨
       (∃ e, pipelineRun env b rng = Except.error e ∧
          detect_ai_voice env b L rng = (hashFallback env b, rng))) := by
  cases h : pipelineRun env b rng with
  | ok r =>
    have hd : detect_ai_voice env b L rng = r := by simp [detect_ai_voice, h]
    exact ⟨r.1.1, r.1.2, r.2, by rw [hd], Or.inl ⟨r, rfl, hd⟩⟩
  | error e =>
    have hd : detect_ai_voice env b L rng = (hashFallback env b, rng) := by
      simp [detect_ai_voice, h]
    exact ⟨(hashFallback env b).1, (hashFallback env b).2, rng, by rw [hd],
      Or.inr ⟨e, rfl, hd⟩⟩

/-- **C2.** For every input, the returned label is exactly `AI_GENERATED`
or `HUMAN` and the confidence lies in `[0, 1]`, on both the normal
classify path (the final score is clamped to `[0, 1]`) and the pipeline
fallback path (where the digest bound keeps the normalized hash in
`[0, 1]`). -/
theorem claim_C2 {σ : Type} (env : Env σ) (b : Bytes) (L : String) (rng : σ)
    (h : env.md5 b < 2 ^ 128) :
    ((detect_ai_voice env b L rng).1.1 = "AI_GENERATED" ∨
      (detect_ai_voice env b L rng).1.1 = "HUMAN") ∧
    0 ≤ (detect_ai_voice env b L rng).1.2 ∧
    (detect_ai_voice env b L rng).1.2 ≤ 1 := by
  cases he : extract_features_fast env (load_audio_fast env b).1
      (load_audio_fast env b).2 with
  | error e =>
    have hd : detect_ai_voice env b L rng = (hashFallback env b, rng) := by
      simp [detect_ai_voice, pipelineRun, he]
    rw [hd]
    obtain ⟨hl, h7, h8⟩ := hashFallback_props env b h
    exact ⟨hl, by linarith, by linarith⟩
  | ok f =>
    have hd : detect_ai_voice env b L rng = classify_voice env f b rng := by
      simp [detect_ai_voice, pipelineRun, he]
    rw [hd]
    obtain ⟨hl, hc1, hc2⟩ := classify_voice_conf env f b rng
    exact ⟨hl, by linarith, hc2⟩

/-- Witness for C2 at the concrete trivial environment and empty bytes. -/
theorem claim_C2_witness :
    ((detect_ai_voice envTriv [] "en" ()).1.1 = "AI_GENERATED" ∨
      (detect_ai_voice envTriv [] "en" ()).1.1 = "HUMAN") ∧
    0 ≤ (detect_ai_voice envTriv [] "en" ()).1.2 ∧
    (detect_ai_voice envTriv [] "en" ()).1.2 ≤ 1 :=
  claim_C2 envTriv [] "en" () (by norm_num [envTriv])

/-- **C3.** Determinism as a hyperproperty over the global numpy RNG
state: two runs of `detect_ai_voice` on the same bytes from arbitrary
(possibly different) incoming RNG states return the same
(label, confidence), because both perturbations are reseeded from the
content digest before being drawn. -/
theorem claim_C3 {σ : Type} (env : Env σ) (b : Bytes) (L : String)
    (r1 r2 : σ) :
    (detect_ai_voice env b L r1).1 = (detect_ai_voice env b L r2).1 := by
  cases he : extract_features_fast env (load_audio_fast env b).1
      (load_audio_fast env b).2 with
  | error e => simp [detect_ai_voice, pipelineRun, he]
  | ok f => simp [detect_ai_voice, pipelineRun, he, classify_voice]

lemma linspace_length (stop num : ℕ) : (linspace stop num).length = num := by
  unfold linspace
  split_ifs with h1 h2
  · simp [h1]
  · simp [h2]
  · rw [List.length_map, List.length_range]

lemma resample_length (y : List ℚ) (n : ℕ) : (resample y n).length = n := by
  simp [resample, linspace_length]

/-- Counterexample to **C4** as stated, at two concrete inputs.  First,
the length formula: with a successful 1-sample decode at 22050 Hz the
code's `int(len(y) * 16000 / sr)` truncates `0.7256…` to length 0, while
the claim's `round(original_length * target_rate / sr)` predicts
length 1.  Second, "decode succeeds" does not suffice for the claimed
interpolation to happen at all: with a successful zero-frame decode at
44100 Hz, `np.interp` raises on its empty array of sample points, the
attempt falls through, and the output is the 48000-sample synthetic
waveform rather than an interpolated buffer of the predicted length
`round(0 * 16000 / 44100) = 0`. -/
theorem claim_C4_counterexample :
    (envDecode1.decodeMem [0] = some ⟨SfData.oneD [1], 22050⟩ ∧
      ((load_audio_fast envDecode1 [0]).1.length : ℤ) ≠
        round ((((toMono (SfData.oneD [1])).length : ℚ) * 16000) / 22050)) ∧
    (envEmpty44k.decodeMem [9] = some ⟨SfData.oneD [], 44100⟩ ∧
      (load_audio_fast envEmpty44k [9]).1 = fakeAudio envEmpty44k [9] ∧
      ((load_audio_fast envEmpty44k [9]).1.length : ℤ) ≠
        round ((((toMono (SfData.oneD ([] : List ℚ))).length : ℚ) * 16000) /
          44100)) := by
  have h0 : (load_audio_fast envDecode1 [0]).1.length = 0 := rfl
  have hm : memAttempt envEmpty44k [9] = none := rfl
  have hf : fileAttempt envEmpty44k [9] = none := rfl
  have hl : load_audio_fast envEmpty44k [9] = (fakeAudio envEmpty44k [9], 16000) := by
    simp [load_audio_fast, hm, hf]
  have hlen : (load_audio_fast envEmpty44k [9]).1.length = 3 * 16000 := by
    rw [hl]
    unfold fakeAudio
    rw [List.length_map, List.length_range]
  refine ⟨⟨rfl, ?_⟩, rfl, ?_, ?_⟩
  · rw [h0]
    norm_num [toMono, round_eq]
  · rw [hl]
  · rw [hlen]
    norm_num [toMono, round_eq]

/-- **C4 (amended).** Whenever the in-memory decode succeeds with a
sample rate that differs from the 16000 Hz target and the decode attempt
completes without raising (when `sr = 0` — `ZeroDivisionError` — or the
decoded mono signal is empty — `np.interp`'s empty-sample-points
`ValueError` — it raises instead, and the loader falls through to its
next strategy), the output waveform is produced by linear interpolation
onto a new index domain whose length is the *truncation*
`⌊original_length * target_rate / sr⌋` — Python `int()`, not `round`. -/
theorem claim_C4 {σ : Type} (env : Env σ) (b : Bytes) (d : SfRead)
    (w : List ℚ) (h1 : env.soundfileAvailable = true)
    (h2 : env.decodeMem b = some d) (h3 : d.sr ≠ 16000)
    (h4 : memAttempt env b = some w) :
    w = resample (toMono d.data) ((toMono d.data).length * 16000 / d.sr) ∧
    w.length = (toMono d.data).length * 16000 / d.sr ∧
    load_audio_fast env b = (w, 16000) := by
  by_cases hz : d.sr = 0 ∨ toMono d.data = []
  · have hnone : memAttempt env b = none := by
      simp [memAttempt, h1, h2, tryDecode, h3, hz]
    rw [hnone] at h4
    exact absurd h4 (by simp)
  · have hm : memAttempt env b =
        some (resample (toMono d.data) ((toMono d.data).length * 16000 / d.sr)) := by
      simp [memAttempt, h1, h2, tryDecode, h3, hz]
    rw [hm] at h4
    have hw : w = resample (toMono d.data) ((toMono d.data).length * 16000 / d.sr) :=
      (Option.some.inj h4).symm
    refine ⟨hw, ?_, ?_⟩
    · rw [hw, resample_length]
    · simp [load_audio_fast, hm, hw]

/-- Witness for C4 (amended): a 3-sample decode at 8000 Hz completes and
resamples to `int(3 * 16000 / 8000) = 6` samples. -/
theorem claim_C4_witness :
    resample (toMono (SfData.oneD [0, 0, 0]))
        ((toMono (SfData.oneD [0, 0, 0])).length * 16000 / 8000) =
      resample (toMono (SfData.oneD [0, 0, 0]))
        ((toMono (SfData.oneD [0, 0, 0])).length * 16000 / 8000) ∧
    (resample (toMono (SfData.oneD [0, 0, 0]))
        ((toMono (SfData.oneD [0, 0, 0])).length * 16000 / 8000)).length =
      (toMono (SfData.oneD [0, 0, 0])).length * 16000 / 8000 ∧
    load_audio_fast envDecode3 [7] =
      (resample (toMono (SfData.oneD [0, 0, 0]))
        ((toMono (SfData.oneD [0, 0, 0])).length * 16000 / 8000), 16000) :=
  claim_C4 envDecode3 [7] ⟨SfData.oneD [0, 0, 0], 8000⟩
    (resample (toMono (SfData.oneD [0, 0, 0]))
      ((toMono (SfData.oneD [0, 0, 0])).length * 16000 / 8000))
    rfl rfl (by decide) rfl

/-- **C5.** For every feature map: only the single highest matching tier
fires inside each tiered feature (spectral flatness and energy variance);
the accumulated denominator is exactly `0.25+0.25+0.15+0.10+0.15+0.10 = 1`
regardless of which tiers fired; and the raw score is the accumulated
score divided by that total weight, clamped to `[0, 1]`. -/
theorem claim_C5 {σ : Type} (env : Env σ) (f : List (String × ℚ)) (b : Bytes) :
    totalWeight = 1 ∧
    rawScore env f b =
      max 0 (min 1 (flatnessContrib f + energyContrib f + zcrContrib f +
        centroidContrib f + rmsContrib f + hashVariation env b)) ∧
    (dget f "spectral_flatness" 0 > 0.3 → flatnessContrib f = 0.25) ∧
    (dget f "spectral_flatness" 0 ≤ 0.3 ∧ dget f "spectral_flatness" 0 > 0.15 →
      flatnessContrib f = 0.1) ∧
    (dget f "spectral_flatness" 0 ≤ 0.15 → flatnessContrib f = 0) ∧
    (dget f "energy_variance" 1 < 0.05 → energyContrib f = 0.25) ∧
    (0.05 ≤ dget f "energy_variance" 1 ∧ dget f "energy_variance" 1 < 0.15 →
      energyContrib f = 0.15) ∧
    (0.15 ≤ dget f "energy_variance" 1 → energyContrib f = 0) := by
  refine ⟨by norm_num [totalWeight], ?_, ?_, ?_, ?_, ?_, ?_, ?_⟩
  · unfold rawScore aiScore totalWeight
    norm_num
  · intro h
    unfold flatnessContrib
    rw [if_pos h]
  · rintro ⟨h1, h2⟩
    unfold flatnessContrib
    rw [if_neg (not_lt.mpr h1), if_pos h2]
  · intro h
    unfold flatnessContrib
    rw [if_neg (not_lt.mpr (by linarith)), if_neg (not_lt.mpr h)]
  · intro h
    unfold energyContrib
    rw [if_pos h]
  · rintro ⟨h1, h2⟩
    unfold energyContrib
    rw [if_neg (not_lt.mpr h1), if_pos h2]
  · intro h
    unfold energyContrib
    rw [if_neg (not_lt.mpr (by linarith)), if_neg (not_lt.mpr h)]

/-- **C6.** The final decision: the label is `AI_GENERATED` with
confidence equal to the final (perturbed, re-clamped) score exactly when
that score exceeds 0.5, otherwise the label is `HUMAN` with confidence
`1 - final score`; the two outcomes are mutually exclusive. -/
theorem claim_C6 {σ : Type} (env : Env σ) (f : List (String × ℚ)) (b : Bytes)
    (rng : σ) :
    ((classify_voice env f b rng).1 = ("AI_GENERATED", finalScore env f b) ∨
      (classify_voice env f b rng).1 = ("HUMAN", 1 - finalScore env f b)) ∧
    (finalScore env f b > 0.5 ↔ (classify_voice env f b rng).1.1 = "AI_GENERATED") ∧
    ¬((classify_voice env f b rng).1.1 = "AI_GENERATED" ∧
      (classify_voice env f b rng).1.1 = "HUMAN") := by
  rw [classify_voice_fst]
  split_ifs with h
  · refine ⟨Or.inl rfl, ⟨fun _ => rfl, fun _ => h⟩, ?_⟩
    rintro ⟨-, hb⟩
    simp at hb
  · refine ⟨Or.inr (by norm_num), ⟨fun hc => absurd hc h, fun hc => ?_⟩, ?_⟩
    · simp at hc
    · rintro ⟨ha, -⟩
      simp at ha

/-- **C7.** When both decode attempts fail, `load_audio_fast` returns
(without raising) the synthetic waveform of exactly `3 * 16000 = 48000`
samples at rate 16000, generated by the pseudorandom generator seeded
with the leading 32 bits of the content digest (so identical bytes give
an identical buffer, `fakeAudio` being a function of the bytes); the
pipeline then classifies that buffer through feature extraction and the
classifier, not through the pipeline-level hash-only fallback. -/
theorem claim_C7 {σ : Type} (env : Env σ) (b : Bytes)
    (h1 : memAttempt env b = none) (h2 : fileAttempt env b = none) :
    load_audio_fast env b = (fakeAudio env b, 16000) ∧
    (fakeAudio env b).length = 3 * 16000 ∧
    fakeAudio env b =
      (List.range (16000 * 3)).map (env.randn (env.md5 b / 2 ^ 96)) ∧
    ∃ f, extract_features_fast env (fakeAudio env b) 16000 = Except.ok f ∧
      ∀ L rng, detect_ai_voice env b L rng = classify_voice env f b rng := by
  have hload : load_audio_fast env b = (fakeAudio env b, 16000) := by
    simp [load_audio_fast, h1, h2]
  have hlen : (fakeAudio env b).length = 3 * 16000 := by
    unfold fakeAudio
    rw [List.length_map, List.length_range]
  have hne : ¬(fakeAudio env b = []) := by
    intro hcon
    have := congrArg List.length hcon
    rw [hlen] at this
    simp at this
  have hex : extract_features_fast env (fakeAudio env b) 16000 =
      Except.ok ([("mean", npMean (fakeAudio env b)),
        ("std", env.sqrt (npVar (fakeAudio env b))),
        ("max", maxAbs (fakeAudio env b)),
        ("rms", env.sqrt (npMean ((fakeAudio env b).map (fun a => a ^ 2)))),
        ("zcr", zcrOf (fakeAudio env b))] ++
        spectralFeatures env (fakeAudio env b) 16000) := by
    unfold extract_features_fast
    rw [if_neg hne]
  refine ⟨hload, hlen, rfl, ⟨_, hex, ?_⟩⟩
  intro L rng
  simp [detect_ai_voice, pipelineRun, hload, hex]

/-- Witness for C7: under `envTriv` soundfile is unavailable, so both
decode attempts fail on the concrete bytes `[2]`. -/
theorem claim_C7_witness :
    load_audio_fast envTriv [2] = (fakeAudio envTriv [2], 16000) ∧
    (fakeAudio envTriv [2]).length = 3 * 16000 ∧
    fakeAudio envTriv [2] =
      (List.range (16000 * 3)).map (envTriv.randn (envTriv.md5 [2] / 2 ^ 96)) ∧
    ∃ f, extract_features_fast envTriv (fakeAudio envTriv [2]) 16000 = Except.ok f ∧
      ∀ L rng, detect_ai_voice envTriv [2] L rng = classify_voice envTriv f [2] rng :=
  claim_C7 envTriv [2] rfl rfl

lemma spectralFeatures_shape {σ : Type} (env : Env σ) (y : List ℚ) (sr : ℕ) :
    ∃ a b c d, spectralFeatures env y sr =
      [("spectral_centroid", a), ("spectral_rolloff", b),
       ("spectral_flatness", c), ("energy_variance", d)] := by
  unfold spectralFeatures
  split_ifs with h
  · unfold spectralComputed
    split_ifs with h2
    · exact ⟨_, _, _, _, rfl⟩
    · unfold spectralValues
      exact ⟨_, _, _, _, rfl⟩
  · exact ⟨_, _, _, _, rfl⟩

lemma spectralFeatures_neutral {σ : Type} (env : Env σ) (y : List ℚ) (sr : ℕ)
    (h : env.scipyAvailable = false ∨ env.spectralRaises (y.take (2 * sr)) = true) :
    spectralFeatures env y sr = neutralSpectral := by
  unfold spectralFeatures
  rcases h with h | h
  · rw [if_neg]
    simp [h]
  · split_ifs with hs
    · unfold spectralComputed
      split_ifs with hg
      · rfl
      · exact absurd (Or.inr (Or.inr (Or.inr h))) hg
    · rfl

/-- **C8.** Whenever `extract_features_fast` returns, the returned map
contains every key of the closed feature set with a scalar value; and if
scipy is unavailable or the frequency-domain computation throws, the four
frequency-domain features equal the fixed neutral constants
`centroid = 1000.0`, `rolloff = 4000.0`, `flatness = 0.5`,
`energy_variance = 0.1`. -/
theorem claim_C8 {σ : Type} (env : Env σ) (y : List ℚ) (sr : ℕ)
    (f : List (String × ℚ))
    (h : extract_features_fast env y sr = Except.ok f) :
    ((f.lookup "mean").isSome ∧ (f.lookup "std").isSome ∧
      (f.lookup "max").isSome ∧ (f.lookup "rms").isSome ∧
      (f.lookup "zcr").isSome ∧ (f.lookup "spectral_centroid").isSome ∧
      (f.lookup "spectral_rolloff").isSome ∧
      (f.lookup "spectral_flatness").isSome ∧
      (f.lookup "energy_variance").isSome) ∧
    ((env.scipyAvailable = false ∨ env.spectralRaises (y.take (2 * sr)) = true) →
      f.lookup "spectral_centroid" = some 1000.0 ∧
      f.lookup "spectral_rolloff" = some 4000.0 ∧
      f.lookup "spectral_flatness" = some 0.5 ∧
      f.lookup "energy_variance" = some 0.1) := by
  by_cases hy : y = []
  · unfold extract_features_fast at h
    rw [if_pos hy] at h
    exact absurd h (by simp)
  · unfold extract_features_fast at h
    rw [if_neg hy] at h
    obtain rfl := Except.ok.inj h
    constructor
    · obtain ⟨a, bb, c, d, hs⟩ := spectralFeatures_shape env y sr
      rw [hs]
      exact ⟨rfl, rfl, rfl, rfl, rfl, rfl, rfl, rfl, rfl⟩
    · intro hcond
      rw [spectralFeatures_neutral env y sr hcond]
      exact ⟨rfl, rfl, rfl, rfl⟩

/-- Witness for C8 at the concrete waveform `[1]` under `envTriv`. -/
theorem claim_C8_witness :
    (((fW.lookup "mean").isSome ∧ (fW.lookup "std").isSome ∧
      (fW.lookup "max").isSome ∧ (fW.lookup "rms").isSome ∧
      (fW.lookup "zcr").isSome ∧ (fW.lookup "spectral_centroid").isSome ∧
      (fW.lookup "spectral_rolloff").isSome ∧
      (fW.lookup "spectral_flatness").isSome ∧
      (fW.lookup "energy_variance").isSome) ∧
    ((envTriv.scipyAvailable = false ∨
        envTriv.spectralRaises ([1].take (2 * 16000)) = true) →
      fW.lookup "spectral_centroid" = some 1000.0 ∧
      fW.lookup "spectral_rolloff" = some 4000.0 ∧
      fW.lookup "spectral_flatness" = some 0.5 ∧
      fW.lookup "energy_variance" = some 0.1)) :=
  claim_C8 envTriv [1] 16000 fW (by
    unfold extract_features_fast fW envTriv spectralFeatures neutralSpectral
      npMean npVar maxAbs zcrOf
    norm_num)

/-- **C9.** If any exception escapes the load → extract → classify chain,
`detect_ai_voice` returns the classification computed purely from the
content digest: with `n = (leading 32 bits of the digest) / 0xFFFFFFFF`,
`(AI_GENERATED, 0.6 + n*0.2)` when `n > 0.5`, else
`(HUMAN, 0.6 + (1-n)*0.2)`. -/
theorem claim_C9 {σ : Type} (env : Env σ) (b : Bytes) (L : String) (rng : σ)
    (e : Unit) (h : pipelineRun env b rng = Except.error e) :
    (detect_ai_voice env b L rng).1 =
      if ((env.md5 b / 2 ^ 96 : ℕ) : ℚ) / 0xFFFFFFFF > 0.5 then
        ("AI_GENERATED", 0.6 + ((env.md5 b / 2 ^ 96 : ℕ) : ℚ) / 0xFFFFFFFF * 0.2)
      else
        ("HUMAN", 0.6 + (1 - ((env.md5 b / 2 ^ 96 : ℕ) : ℚ) / 0xFFFFFFFF) * 0.2) := by
  unfold detect_ai_voice
  rw [h]
  rfl

/-- Witness for C9: a decode that succeeds with an empty waveform makes
feature extraction raise, so the pipeline errors on concrete input. -/
theorem claim_C9_witness :
    (detect_ai_voice envEmptyDecode [] "en" ()).1 =
      if ((envEmptyDecode.md5 [] / 2 ^ 96 : ℕ) : ℚ) / 0xFFFFFFFF > 0.5 then
        ("AI_GENERATED",
          0.6 + ((envEmptyDecode.md5 [] / 2 ^ 96 : ℕ) : ℚ) / 0xFFFFFFFF * 0.2)
      else
        ("HUMAN",
          0.6 + (1 - ((envEmptyDecode.md5 [] / 2 ^ 96 : ℕ) : ℚ) / 0xFFFFFFFF) * 0.2) :=
  claim_C9 envEmptyDecode [] "en" () () rfl

/-- **C10.** The confidence returned by `detect_ai_voice` is never below
0.5: on the normal path it is the final score (when that exceeds 0.5) or
one minus the clamped final score (otherwise, hence at least 0.5), and on
the pipeline fallback path it lies in `[0.7, 0.8]`. -/
theorem claim_C10 {σ : Type} (env : Env σ) (b : Bytes) (L : String) (rng : σ)
    (h : env.md5 b < 2 ^ 128) :
    0.5 ≤ (detect_ai_voice env b L rng).1.2 ∧
    (∀ e, pipelineRun env b rng = Except.error e →
      0.7 ≤ (detect_ai_voice env b L rng).1.2 ∧
      (detect_ai_voice env b L rng).1.2 ≤ 0.8) := by
  constructor
  · cases he : extract_features_fast env (load_audio_fast env b).1
        (load_audio_fast env b).2 with
    | error e =>
      have hd : detect_ai_voice env b L rng = (hashFallback env b, rng) := by
        simp [detect_ai_voice, pipelineRun, he]
      rw [hd]
      obtain ⟨-, h7, -⟩ := hashFallback_props env b h
      norm_num
      linarith
    | ok f =>
      have hd : detect_ai_voice env b L rng = classify_voice env f b rng := by
        simp [detect_ai_voice, pipelineRun, he]
      rw [hd]
      have := (classify_voice_conf env f b rng).2.1
      norm_num
      linarith
  · intro e he
    have hd : detect_ai_voice env b L rng = (hashFallback env b, rng) := by
      simp [detect_ai_voice, he]
    rw [hd]
    obtain ⟨-, h7, h8⟩ := hashFallback_props env b h
    norm_num
    constructor <;> linarith

/-- Witness for C10 at the trivial concrete environment. -/
theorem claim_C10_witness :
    0.5 ≤ (detect_ai_voice envTriv [] "en" ()).1.2 ∧
    (∀ e, pipelineRun envTriv [] () = Except.error e →
      0.7 ≤ (detect_ai_voice envTriv [] "en" ()).1.2 ∧
      (detect_ai_voice envTriv [] "en" ()).1.2 ≤ 0.8) :=
  claim_C10 envTriv [] "en" () (by norm_num [envTriv])
